import Mathlib

/-!
Verification development for the ssc compiler front end.

The repository under study contains the template-tree type declarations
(crate ssc_ast, file ast.rs) and a CSS codegen example binary
(crate ssc_css_codegen, examples/codegen.rs).  This file embeds:

* the shape of the Rust type declarations as explicit field/variant
  tables (`FieldTy`, the `...Fields` and `...Variants` definitions),
  diffable line by line against ast.rs;
* the tree node types needed for behavioural claims as Lean structures
  and inductives keeping the source names;
* the control flow of the codegen example as a Lean function
  parameterised over the external parser and printer collaborators;
* definitions marked "Modelled from the spec:" for analysis behaviour
  whose implementation is not part of the given sources.
-/

/-- Shape of a Rust field type as declared in ast.rs, lifetimes elided.
`boolTy` is Rust `bool`, `atomTy` is `Atom`, `spanTy` is `Span`,
`option`, `vec`, `ref` and `hashMap` are `Option<_>`, `Vec<_>`, `&_`
and `FxHashMap<_, _>`, and `name s` is a plain named type. -/
inductive FieldTy where
  | name (s : String)
  | boolTy
  | atomTy
  | spanTy
  | option (t : FieldTy)
  | vec (t : FieldTy)
  | ref (t : FieldTy)
  | hashMap (k : FieldTy) (v : FieldTy)
deriving DecidableEq, Repr

/-- Whether a field type is a Rust `Vec<_>` at the outermost level. -/
def FieldTy.isVec : FieldTy → Bool
  | .vec _ => true
  | _ => false

/-- Fields of struct `Binding` (ast.rs lines 19-37), in source order.
Commented-out fields (`scope`, `expression`, `mutation`) are not fields
of the struct and are not listed. -/
def bindingFields : List (String × FieldTy) :=
  [("node", .name "IdentifierReference"),
   ("kind", .name "BindingKind"),
   ("declaration_kind", .name "DeclarationKind"),
   ("initial", .option (.name "BindingInitial")),
   ("is_called", .boolTy),
   ("references", .name "BindingReferences"),
   ("mutated", .boolTy),
   ("reassigned", .boolTy),
   ("legacy_dependencies", .vec (.name "Binding")),
   ("prop_alias", .option .atomTy),
   ("metadata", .option (.name "BindingMetadata"))]

/-- Fields of struct `BindingReferences` (ast.rs lines 82-87): a single
use-site identifier node plus the node-path to reach it. -/
def bindingReferencesFields : List (String × FieldTy) :=
  [("node", .name "IdentifierReference"),
   ("path", .vec (.name "SvelteNode"))]

/-- Fields of struct `Fragment` (ast.rs lines 95-101). -/
def fragmentFields : List (String × FieldTy) :=
  [("nodes", .vec (.name "FragmentNode")),
   ("transparent", .boolTy)]

/-- Fields of struct `Text` (ast.rs lines 113-121). -/
def textFields : List (String × FieldTy) :=
  [("span", .spanTy),
   ("data", .atomTy),
   ("raw", .atomTy)]

/-- Fields of struct `ExpressionTagMetadata` (ast.rs lines 145-150). -/
def expressionTagMetadataFields : List (String × FieldTy) :=
  [("contains_call_expression", .boolTy),
   ("dynamic", .boolTy)]

/-- Fields of struct `SpreadAttributeMetadata` (ast.rs lines 755-760). -/
def spreadAttributeMetadataFields : List (String × FieldTy) :=
  [("contains_call_expression", .boolTy),
   ("dynamic", .boolTy)]

/-- Fields of struct `RegularElementMetadata` (ast.rs lines 318-324). -/
def regularElementMetadataFields : List (String × FieldTy) :=
  [("svg", .boolTy),
   ("has_spread", .boolTy),
   ("scoped", .boolTy)]

/-- Fields of struct `SvelteElementMetadata` (ast.rs lines 370-375). -/
def svelteElementMetadataFields : List (String × FieldTy) :=
  [("svg", .boolTy),
   ("scoped", .boolTy)]

/-- Fields of struct `SvelteOptions` (ast.rs lines 623-635). -/
def svelteOptionsFields : List (String × FieldTy) :=
  [("span", .spanTy),
   ("runes", .option .boolTy),
   ("immutable", .option .boolTy),
   ("accessors", .option .boolTy),
   ("preserve_whitespace", .option .boolTy),
   ("namespace", .option (.name "Namespace")),
   ("custom_element", .option (.name "CustomElementOptions")),
   ("attributes", .vec (.name "Attribute"))]

/-- Fields of struct `BindDirective` (ast.rs lines 786-796).  The
metadata field is commented out in the source (a TODO), so the struct
has exactly these three fields. -/
def bindDirectiveFields : List (String × FieldTy) :=
  [("span", .spanTy),
   ("name", .atomTy),
   ("expression", .name "BindDirectiveExpression")]

/-- Fields of struct `BindDirectiveMetadata` (ast.rs lines 806-811). -/
def bindDirectiveMetadataFields : List (String × FieldTy) :=
  [("binding_group_name", .name "IdentifierReference"),
   ("parent_each_blocks", .vec (.ref (.name "EachBlock")))]

/-- Variants of enum `Element` (ast.rs lines 196-213), in source order. -/
def elementVariants : List String :=
  ["Component", "TitleElement", "SlotElement", "RegularElement",
   "SvelteBody", "SvelteComponent", "SvelteDocument", "SvelteElement",
   "SvelteFragment", "SvelteHead", "SvelteOptionsRaw", "SvelteSelf",
   "SvelteWindow"]

/-- The thirteen variant names the specification enumerates for the
`Element` union, in the order the claim lists them; to be compared with
`elementVariants` taken from the source. -/
def specElementVariants : List String :=
  ["Component", "RegularElement", "SlotElement", "TitleElement",
   "SvelteElement", "SvelteComponent", "SvelteWindow", "SvelteDocument",
   "SvelteBody", "SvelteHead", "SvelteFragment", "SvelteSelf",
   "SvelteOptionsRaw"]

/-- Variants of enum `Namespace` (ast.rs lines 637-646), in source
order; the `Html` variant carries the `default` attribute. -/
def namespaceVariants : List String :=
  ["Html", "Svg", "MathMl", "Foreign"]

/-- Source span, standing in for the external `oxc_span::Span` (a pair
of u32 offsets); the second field is called `end` in Rust, renamed
`stop` here because `end` is a Lean keyword. -/
structure Span where
  start : Nat
  stop : Nat
deriving DecidableEq, Repr

/-- Modelled from the spec: the external expression-language tree
(crate oxc_ast, not part of the given sources) is consumed opaquely;
the core only asks whether a node is an identifier reference (and its
name), a call expression, or a member expression (and its base), so
the embedding keeps exactly those shapes plus literals and a generic
binary combination for nesting. -/
inductive Expr where
  | ident (name : String)
  | lit
  | member (obj : Expr) (prop : String)
  | call (callee : Expr) (args : List Expr)
  | binary (left : Expr) (right : Expr)

/-- Variants of enum `BindingKind` (ast.rs lines 42-55). -/
inductive BindingKind where
  | Normal
  | Prop
  | BindableProp
  | RestProp
  | State
  | FrozenState
  | Derived
  | Each
  | Snippet
  | StoreSub
  | LegacyReactive
  | LegacyReactiveImport
deriving DecidableEq, Repr

/-- Enum `Namespace` (ast.rs lines 637-646).  The Rust enum derives
`Default` with the `default` attribute on `Html`; `Inhabited` mirrors
this, picking the first constructor. -/
inductive Namespace where
  | Html
  | Svg
  | MathMl
  | Foreign
deriving DecidableEq, Repr, Inhabited

/-- Struct `Text` (ast.rs lines 113-121); `Atom` is embedded as
`String`. -/
structure Text where
  span : Span
  data : String
  raw : String
deriving DecidableEq, Repr

/-- Struct `ExpressionTagMetadata` (ast.rs lines 145-150). -/
structure ExpressionTagMetadata where
  contains_call_expression : Bool
  dynamic : Bool
deriving DecidableEq, Repr

/-- Struct `ExpressionTag` (ast.rs lines 134-143). -/
structure ExpressionTag where
  span : Span
  expression : Expr
  metadata : ExpressionTagMetadata

/-- Enum `AttributeSequenceValue` (ast.rs lines 736-742). -/
inductive AttributeSequenceValue where
  | Text (t : Text)
  | ExpressionTag (e : ExpressionTag)

/-- Enum `AttributeValue` (ast.rs lines 728-734). -/
inductive AttributeValue where
  | Bool (b : Bool)
  | Sequence (vs : List AttributeSequenceValue)

/-- Struct `Attribute` (ast.rs lines 718-726). -/
structure Attribute where
  span : Span
  name : String
  value : AttributeValue

/-- Struct `SpreadAttributeMetadata` (ast.rs lines 755-760). -/
structure SpreadAttributeMetadata where
  contains_call_expression : Bool
  dynamic : Bool
deriving DecidableEq, Repr

/-- Struct `SpreadAttribute` (ast.rs lines 744-753). -/
structure SpreadAttribute where
  span : Span
  expression : Expr
  metadata : SpreadAttributeMetadata

/-- Struct `AnimateDirective` (ast.rs lines 776-784). -/
structure AnimateDirective where
  span : Span
  name : String
  expression : Option Expr

/-- Enum `BindDirectiveExpression` (ast.rs lines 798-804). -/
inductive BindDirectiveExpression where
  | Identifier (id : String)
  | MemberExpression (m : Expr)

/-- Struct `BindDirective` (ast.rs lines 786-796).  The source has no
metadata field: the line declaring one is commented out behind a TODO
remark. -/
structure BindDirective where
  span : Span
  name : String
  expression : BindDirectiveExpression

/-- Struct `ClassDirectiveMetadata` (ast.rs lines 825-829). -/
structure ClassDirectiveMetadata where
  dynamic : Bool
deriving DecidableEq, Repr

/-- Struct `ClassDirective` (ast.rs lines 813-823). -/
structure ClassDirective where
  span : Span
  name : String
  expression : Expr
  metadata : ClassDirectiveMetadata

/-- Enum `LetDirectiveExpression` (ast.rs lines 841-848). -/
inductive LetDirectiveExpression where
  | Identifier (id : String)
  | ArrayExpression (a : Expr)
  | ObjectExpression (o : Expr)

/-- Struct `LetDirective` (ast.rs lines 831-839). -/
structure LetDirective where
  span : Span
  name : String
  expression : Option LetDirectiveExpression

/-- Struct `OnDirective` (ast.rs lines 850-860); modifiers are kept as
plain strings, as in the source. -/
structure OnDirective where
  span : Span
  name : String
  expression : Option Expr
  modifiers : List String

/-- Enum `StyleDirectiveModifier` (ast.rs lines 875-880). -/
inductive StyleDirectiveModifier where
  | Important
deriving DecidableEq, Repr

/-- Struct `StyleDirectiveMetadata` (ast.rs lines 882-886). -/
structure StyleDirectiveMetadata where
  dynamic : Bool
deriving DecidableEq, Repr

/-- Struct `StyleDirective` (ast.rs lines 862-873). -/
structure StyleDirective where
  span : Span
  name : String
  value : AttributeValue
  modifiers : List StyleDirectiveModifier
  metadata : StyleDirectiveMetadata

/-- Enum `TransitionDirectiveModifier` (ast.rs lines 901-907). -/
inductive TransitionDirectiveModifier where
  | Local
  | Global
deriving DecidableEq, Repr

/-- Struct `TransitionDirective` (ast.rs lines 888-899). -/
structure TransitionDirective where
  span : Span
  name : String
  expression : Option Expr
  modifiers : List TransitionDirectiveModifier
  intro : Bool
  outro : Bool

/-- Struct `UseDirective` (ast.rs lines 909-917). -/
structure UseDirective where
  span : Span
  name : String
  expression : Option Expr

/-- Enum `Directive` (ast.rs lines 762-774). -/
inductive Directive where
  | AnimateDirective (d : AnimateDirective)
  | BindDirective (d : BindDirective)
  | ClassDirective (d : ClassDirective)
  | LetDirective (d : LetDirective)
  | OnDirective (d : OnDirective)
  | StyleDirective (d : StyleDirective)
  | TransitionDirective (d : TransitionDirective)
  | UseDirective (d : UseDirective)

/-- Enum `ElementAttribute` (ast.rs lines 215-222). -/
inductive ElementAttribute where
  | Attribute (a : Attribute)
  | SpreadAttribute (s : SpreadAttribute)
  | Directive (d : Directive)

/-- Alias for the struct `Attribute`: inside the `ElementAttribute`
namespace the homonymous constructor shadows the struct name. -/
abbrev AttributeS := Attribute

/-- Alias for the struct `SpreadAttribute` (same shadowing issue). -/
abbrev SpreadAttributeS := SpreadAttribute

/-- Alias for the enum `Directive` (same shadowing issue). -/
abbrev DirectiveS := Directive

/-- Accessor `ElementAttribute::as_attribute` (ast.rs lines 225-231). -/
def ElementAttribute.as_attribute : ElementAttribute → Option AttributeS
  | .Attribute a => some a
  | _ => none

/-- Accessor `ElementAttribute::as_spread_attribute` (ast.rs lines
233-239). -/
def ElementAttribute.as_spread_attribute : ElementAttribute → Option SpreadAttributeS
  | .SpreadAttribute s => some s
  | _ => none

/-- Accessor `ElementAttribute::as_directive` (ast.rs lines 241-247). -/
def ElementAttribute.as_directive : ElementAttribute → Option DirectiveS
  | .Directive d => some d
  | _ => none

/-- Consuming accessor `ElementAttribute::attribute` (ast.rs lines
249-255); ownership does not exist in the embedding, so it coincides
with the borrowing accessor. -/
def ElementAttribute.attribute : ElementAttribute → Option AttributeS
  | .Attribute a => some a
  | _ => none

/-- Consuming accessor `ElementAttribute::spread_attribute` (ast.rs
lines 257-263). -/
def ElementAttribute.spread_attribute : ElementAttribute → Option SpreadAttributeS
  | .SpreadAttribute s => some s
  | _ => none

/-- Consuming accessor `ElementAttribute::directive` (ast.rs lines
265-271). -/
def ElementAttribute.directive : ElementAttribute → Option DirectiveS
  | .Directive d => some d
  | _ => none

/-- Modelled from the spec: the Binding Table entry the taint pass
reads for a resolved identifier (spec 4.3).  The full `Binding` struct
of ast.rs carries more fields; the dynamic-taint rule only consults the
kind and the accumulated `mutated` flag, which is all the analysis pass
(absent from the given sources) needs here. -/
structure BindingRec where
  kind : BindingKind
  mutated : Bool
deriving DecidableEq, Repr

/-- Modelled from the spec: the set of binding kinds whose mere
reference taints an expression as dynamic (spec 4.3): State, Derived,
Prop, BindableProp, StoreSub, LegacyReactive, LegacyReactiveImport and
Each. -/
def kindTaints : BindingKind → Bool
  | .State => true
  | .Derived => true
  | .Prop => true
  | .BindableProp => true
  | .StoreSub => true
  | .LegacyReactive => true
  | .LegacyReactiveImport => true
  | .Each => true
  | _ => false

/-- Modelled from the spec: a `Normal` or `RestProp` binding taints a
reference only when a mutation was recorded somewhere in the component
(spec 4.3). -/
def mutationTaints (b : BindingRec) : Bool :=
  match b.kind with
  | .Normal => b.mutated
  | .RestProp => b.mutated
  | _ => false

/-- Modelled from the spec: the taint contributed by one resolved
identifier reference (spec 4.3); an unresolved name contributes no
taint. -/
def identTaint (env : String → Option BindingRec) (x : String) : Bool :=
  match env x with
  | some b => kindTaints b.kind || mutationTaints b
  | none => false

/-- Modelled from the spec: the contains-call taint (spec 4.3) — any
call expression anywhere in the tree sets it; computed bottom-up by
OR-reduction.  A call node itself suffices, so its arguments need not
be searched. -/
def Expr.containsCall : Expr → Bool
  | .ident _ => false
  | .lit => false
  | .member o _ => o.containsCall
  | .call _ _ => true
  | .binary l r => l.containsCall || r.containsCall

/-- Modelled from the spec: the dynamic taint of an expression
(spec 4.3): bottom-up OR-reduction, an identifier contributes
`identTaint`, any call expression taints the whole expression. -/
def Expr.dynamic (env : String → Option BindingRec) : Expr → Bool
  | .ident x => identTaint env x
  | .lit => false
  | .member o _ => o.dynamic env
  | .call _ _ => true
  | .binary l r => l.dynamic env || r.dynamic env

/-- Modelled from the spec: whether an expression syntactically
contains a reference to the identifier `x`, at any nesting depth —
including inside the arguments of a call. -/
def Expr.referencesIdent (x : String) : Expr → Bool
  | .ident y => y == x
  | .lit => false
  | .member o _ => o.referencesIdent x
  | .call c args => c.referencesIdent x || args.attach.any (fun a => a.1.referencesIdent x)
  | .binary l r => l.referencesIdent x || r.referencesIdent x
decreasing_by
  all_goals simp_wf
  all_goals try omega
  have h := List.sizeOf_lt_of_mem a.2
  omega

/-- Modelled from the spec: the analysis populates the metadata slot of
an `ExpressionTag` exactly once (spec 3, 4.3), writing the two computed
taints into the `ExpressionTagMetadata` record of ast.rs. -/
def analyzeExpressionTag (env : String → Option BindingRec) (sp : Span) (e : Expr) :
    ExpressionTag :=
  { span := sp, expression := e,
    metadata := { contains_call_expression := e.containsCall, dynamic := e.dynamic env } }

/-- Modelled from the spec: the key under which a binding group is
synthesised or reused (spec 4.5): the resolved root binding plus the
literal member-path.  Spans take no part in this key — the spec
forbids span-based identity for group comparison. -/
structure GroupKey where
  root : String
  memberPath : List String
deriving DecidableEq, Repr

/-- Modelled from the spec: the stable group identifier synthesised
for a key (spec 4.5); being a pure function of the key makes reuse
automatic: equal keys always receive the identical name. -/
def bindingGroupName (k : GroupKey) : String :=
  k.memberPath.foldl (fun acc seg => acc ++ "_" ++ seg) ("binding_group_" ++ k.root)

/-- Modelled from the spec: what the group resolver sees of one
`bind:` directive occurrence (spec 4.5): its span, the chain of
enclosing `EachBlock`s (as spans of those blocks, innermost last), the
resolved root binding and the literal member-path of its target. -/
structure BindDirectiveSite where
  span : Span
  parentEachChain : List Span
  root : String
  memberPath : List String
deriving DecidableEq, Repr

/-- Modelled from the spec: group resolution for one `bind:` directive
(spec 4.5, absent from the given sources): when the chain of enclosing
each blocks is empty no group is needed; when it is non-empty a stable
identifier keyed by root binding and member-path is assigned. -/
def resolveBindingGroup (d : BindDirectiveSite) : Option String :=
  if d.parentEachChain.isEmpty then none
  else some (bindingGroupName { root := d.root, memberPath := d.memberPath })

/-- Modelled from the spec: top-down namespace resolution at the root
(spec 4.4, absent from the given sources): the root namespace is the
`Namespace` default (`Html`) unless the optional root-level option
overrides it. -/
def resolveRootNamespace (opt : Option Namespace) : Namespace :=
  opt.getD default

/-- Return value of the external `ssc_css_parser::Parser::parse`, as
consumed by examples/codegen.rs: an error list and a stylesheet; the
stylesheet type is opaque to the example and kept abstract here. -/
structure ParserReturn (α : Type) where
  errors : List String
  stylesheet : α

/-- Everything examples/codegen.rs prints, by channel: the decorated
errors, and the Original, Printed and Minified sections, each `none`
when that section is never printed. -/
structure MainOutput where
  errorOutput : List (String × String)
  originalOutput : Option String
  printedOutput : Option String
  minifiedOutput : Option String
deriving DecidableEq, Repr

/-- Decoration `error.with_source_code(source_text.clone())` applied to
each parse error before printing (codegen.rs line 21): the embedding
keeps the pair of the error and the attached source. -/
def withSourceCode (err source : String) : String × String := (err, source)

/-- Function `main` of examples/codegen.rs (lines 12-43), embedded over
the external collaborators: `parse` is `Parser::parse` on the chosen
allocator, `build` is `Codegen::<MINIFY>::new(..).build(..).source_text`
taking the minify flag, the source text passed to `new`, and the
stylesheet; `readResult` is the outcome of `fs::read_to_string`, whose
error the `?` operator propagates.  When the first parse yields errors,
each is decorated and printed and `main` returns `Ok(())` early;
otherwise the original text, the printed build of the first parse, and
the minified build of a reparse of the printed text are produced. -/
def codegenMain {α : Type} (parse : String → ParserReturn α)
    (build : Bool → String → α → String)
    (readResult : Except String String) : Except String MainOutput :=
  match readResult with
  | .error e => .error e
  | .ok source_text =>
    let ret := parse source_text
    if ret.errors.isEmpty = false then
      .ok { errorOutput := ret.errors.map (fun e => withSourceCode e source_text),
            originalOutput := none, printedOutput := none, minifiedOutput := none }
    else
      let printed := build false source_text ret.stylesheet
      let ret2 := parse printed
      let minified := build true source_text ret2.stylesheet
      .ok { errorOutput := [],
            originalOutput := some source_text,
            printedOutput := some printed,
            minifiedOutput := some minified }

/-- Concrete binding environment used by witnesses: `count` is a State
binding, `total` a Normal binding never mutated. -/
def demoEnv : String → Option BindingRec := fun s =>
  if s = "count" then some { kind := .State, mutated := false }
  else if s = "total" then some { kind := .Normal, mutated := false }
  else none

/-- Concrete parser stub used by the codegen witness: every input
yields one parse error and a unit stylesheet. -/
def demoFailingParse : String → ParserReturn Unit := fun _ =>
  { errors := ["unexpected token"], stylesheet := () }

/-- Concrete code generator stub used by the codegen witness. -/
def demoBuild : Bool → String → Unit → String := fun _ _ _ => ""

/-- First concrete `bind:` directive site used by witnesses: inside one
enclosing each block, targeting `items[i].done`. -/
def demoSite1 : BindDirectiveSite :=
  { span := { start := 10, stop := 20 },
    parentEachChain := [{ start := 0, stop := 30 }],
    root := "items", memberPath := ["done"] }

/-- Second concrete `bind:` directive site used by witnesses: a second
occurrence at a different span, under a deeper each chain, resolving to
the same root binding via the same literal member-path. -/
def demoSite2 : BindDirectiveSite :=
  { span := { start := 40, stop := 50 },
    parentEachChain := [{ start := 0, stop := 60 }, { start := 35, stop := 55 }],
    root := "items", memberPath := ["done"] }

/-- Helper: a reference to an identifier whose resolved binding taints
(per `identTaint`) makes the whole containing expression dynamic; call
expressions are dynamic outright, so the argument lists need no
inductive hypothesis. -/
theorem Expr.dynamic_of_referencesIdent (env : String → Option BindingRec) (x : String)
    (hx : identTaint env x = true) :
    ∀ e : Expr, e.referencesIdent x = true → e.dynamic env = true := by
  intro e
  induction e using Expr.referencesIdent.induct x
  case case1 y =>
    intro h
    simp [Expr.referencesIdent] at h
    simp [Expr.dynamic, identTaint] at hx ⊢
    simpa [h] using hx
  case case2 =>
    intro h
    simp [Expr.referencesIdent] at h
  case case3 o p ih =>
    intro h
    simp [Expr.referencesIdent] at h
    simp [Expr.dynamic, ih h]
  case case4 c args ihc ihargs =>
    intro _
    simp [Expr.dynamic]
  case case5 l r ihl ihr =>
    intro h
    simp [Expr.referencesIdent] at h
    rcases h with h | h
    · simp [Expr.dynamic, ihl h]
    · simp [Expr.dynamic, ihr h]

/-- C1 counterexample: the claim as stated fails — the `BindDirective`
struct of ast.rs has exactly the fields span, name and expression; it
provides no metadata slot (neither a `binding_group_name` field nor a
field of type `BindDirectiveMetadata`), since the metadata field is
commented out behind a TODO. -/
theorem c1_counterexample :
    bindDirectiveFields.map Prod.fst = ["span", "name", "expression"] ∧
    "metadata" ∉ bindDirectiveFields.map Prod.fst ∧
    "binding_group_name" ∉ bindDirectiveFields.map Prod.fst ∧
    FieldTy.name "BindDirectiveMetadata" ∉ bindDirectiveFields.map Prod.snd := by
  decide

/-- C1 (amended): for a `bind:` directive under a non-empty chain of
enclosing each blocks the resolver assigns a stable
`binding_group_name`, and two directives resolving to the same root
binding via the same literal member-path receive the identical name
regardless of their spans or chains; the standalone
`BindDirectiveMetadata` record type provides the slots for the name and
the each-block chain, but the `BindDirective` node itself does not
carry that record. -/
theorem c1_binding_group (d1 d2 : BindDirectiveSite)
    (h1 : d1.parentEachChain ≠ []) (h2 : d2.parentEachChain ≠ [])
    (hroot : d1.root = d2.root) (hpath : d1.memberPath = d2.memberPath) :
    (resolveBindingGroup d1).isSome = true ∧
    resolveBindingGroup d1 = resolveBindingGroup d2 ∧
    bindDirectiveMetadataFields.map Prod.fst =
      ["binding_group_name", "parent_each_blocks"] ∧
    "metadata" ∉ bindDirectiveFields.map Prod.fst := by
  refine ⟨?_, ?_, by decide, by decide⟩
  · simp [resolveBindingGroup, h1]
  · simp [resolveBindingGroup, h1, h2, hroot, hpath]

/-- Witness for `c1_binding_group` at the two concrete directive sites:
different spans and different each chains, same root and member-path,
identical synthesised group name. -/
theorem c1_witness :
    demoSite1.parentEachChain ≠ [] ∧ demoSite2.parentEachChain ≠ [] ∧
    demoSite1.span ≠ demoSite2.span ∧
    (resolveBindingGroup demoSite1).isSome = true ∧
    resolveBindingGroup demoSite1 = resolveBindingGroup demoSite2 :=
  ⟨by decide, by decide, by decide,
   (c1_binding_group demoSite1 demoSite2 (by decide) (by decide) rfl rfl).1,
   (c1_binding_group demoSite1 demoSite2 (by decide) (by decide) rfl rfl).2.1⟩

/-- C2: for every binding resolved to kind `State`, every expression
that references it, at any nesting depth, has the `dynamic` flag of its
`ExpressionTagMetadata` equal to true after the analysis populates it. -/
theorem c2_state_reference_dynamic (env : String → Option BindingRec) (x : String)
    (b : BindingRec) (hb : env x = some b) (hk : b.kind = BindingKind.State)
    (sp : Span) (e : Expr) (href : e.referencesIdent x = true) :
    (analyzeExpressionTag env sp e).metadata.dynamic = true := by
  have hx : identTaint env x = true := by
    simp [identTaint, hb, hk, kindTaints]
  simpa [analyzeExpressionTag] using
    Expr.dynamic_of_referencesIdent env x hx e href

/-- Witness for `c2_state_reference_dynamic`: `count` is a State
binding in `demoEnv`, the expression `count + 1` (a binary node over an
identifier reference and a literal) references it, and the populated
metadata has `dynamic = true`. -/
theorem c2_witness :
    demoEnv "count" = some { kind := BindingKind.State, mutated := false } ∧
    (Expr.binary (.ident "count") .lit).referencesIdent "count" = true ∧
    (analyzeExpressionTag demoEnv { start := 0, stop := 9 }
      (Expr.binary (.ident "count") .lit)).metadata.dynamic = true :=
  ⟨by decide, by simp [Expr.referencesIdent],
   c2_state_reference_dynamic demoEnv "count" { kind := .State, mutated := false }
     (by decide) rfl { start := 0, stop := 9 } _ (by simp [Expr.referencesIdent])⟩

/-- C3 counterexample: the claim as stated fails — the
`SvelteElementMetadata` record of ast.rs has no `has_spread` field. -/
theorem c3_counterexample :
    "has_spread" ∉ svelteElementMetadataFields.map Prod.fst := by
  decide

/-- C3 (amended): `RegularElementMetadata` carries the three boolean
fields svg, has_spread and scoped, while `SvelteElementMetadata`
carries only svg and scoped — it has neither has_spread nor mathml. -/
theorem c3_element_metadata_fields :
    regularElementMetadataFields =
      [("svg", FieldTy.boolTy), ("has_spread", FieldTy.boolTy),
       ("scoped", FieldTy.boolTy)] ∧
    svelteElementMetadataFields =
      [("svg", FieldTy.boolTy), ("scoped", FieldTy.boolTy)] ∧
    "has_spread" ∉ svelteElementMetadataFields.map Prod.fst ∧
    "mathml" ∉ regularElementMetadataFields.map Prod.fst ∧
    "mathml" ∉ svelteElementMetadataFields.map Prod.fst := by
  decide

/-- C4 counterexample: the claim as stated fails — the `Fragment`
struct of ast.rs has no span field. -/
theorem c4_counterexample :
    "span" ∉ fragmentFields.map Prod.fst := by
  decide

/-- C4 (amended): `Text` nodes carry a span field for diagnostics, but
not every node type does: `Fragment` carries only its node list and the
transparent flag, with no span. -/
theorem c4_spans :
    textFields =
      [("span", FieldTy.spanTy), ("data", FieldTy.atomTy),
       ("raw", FieldTy.atomTy)] ∧
    fragmentFields =
      [("nodes", FieldTy.vec (.name "FragmentNode")),
       ("transparent", FieldTy.boolTy)] ∧
    "span" ∉ fragmentFields.map Prod.fst := by
  decide

/-- C5 counterexample: the claim as stated fails — the `references`
field of `Binding` is not a Vec of (use-site, path) entries: its type
is the plain struct `BindingReferences`, which holds exactly one
use-site node and one path. -/
theorem c5_counterexample :
    (bindingFields.filter (fun f => f.fst == "references")).map Prod.snd =
      [FieldTy.name "BindingReferences"] ∧
    FieldTy.isVec (FieldTy.name "BindingReferences") = false := by
  decide

/-- C5 (amended): every `Binding` record carries a `references` field,
but it holds a single use-site record, not arbitrarily many: its type
is the struct `BindingReferences`, consisting of one use-site
`IdentifierReference` plus the node-path (a Vec of `SvelteNode`) to
reach that one use site. -/
theorem c5_binding_references :
    ("references", FieldTy.name "BindingReferences") ∈ bindingFields ∧
    bindingReferencesFields =
      [("node", FieldTy.name "IdentifierReference"),
       ("path", FieldTy.vec (.name "SvelteNode"))] := by
  decide

/-- C6: the `ExpressionTagMetadata` record and the
`SpreadAttributeMetadata` record each consist of exactly the two
boolean fields contains_call_expression and dynamic. -/
theorem c6_metadata_two_bools :
    expressionTagMetadataFields =
      [("contains_call_expression", FieldTy.boolTy),
       ("dynamic", FieldTy.boolTy)] ∧
    spreadAttributeMetadataFields =
      [("contains_call_expression", FieldTy.boolTy),
       ("dynamic", FieldTy.boolTy)] := by
  decide

/-- C7: the `Element` union has exactly thirteen variants, and they are
precisely the thirteen names the specification lists (as sets: both
enumerations are duplicate-free and each is contained in the other). -/
theorem c7_element_variants :
    elementVariants.length = 13 ∧
    elementVariants.Nodup ∧
    specElementVariants.Nodup ∧
    elementVariants.all (fun v => specElementVariants.contains v) = true ∧
    specElementVariants.all (fun v => elementVariants.contains v) = true := by
  decide

/-- C8: the default value of `Namespace` is `Html`, the `namespace`
field of the root-level `SvelteOptions` is optional, and resolving the
root namespace from an absent option yields the `Html` default (while a
present option overrides it). -/
theorem c8_namespace_default :
    (default : Namespace) = Namespace.Html ∧
    ("namespace", FieldTy.option (.name "Namespace")) ∈ svelteOptionsFields ∧
    resolveRootNamespace none = Namespace.Html ∧
    (∀ ns : Namespace, resolveRootNamespace (some ns) = ns) := by
  refine ⟨rfl, by decide, rfl, fun ns => rfl⟩

/-- C9: `as_attribute` returns some exactly on the `Attribute` variant,
`as_spread_attribute` exactly on the `SpreadAttribute` variant,
`as_directive` exactly on the `Directive` variant, and on every
`ElementAttribute` exactly one of the three accessors returns some. -/
theorem c9_element_attribute_accessors (ea : ElementAttribute) :
    (∀ a, ea.as_attribute = some a ↔ ea = .Attribute a) ∧
    (∀ s, ea.as_spread_attribute = some s ↔ ea = .SpreadAttribute s) ∧
    (∀ d, ea.as_directive = some d ↔ ea = .Directive d) ∧
    ea.as_attribute.isSome.toNat + ea.as_spread_attribute.isSome.toNat +
      ea.as_directive.isSome.toNat = 1 := by
  cases ea <;>
    simp [ElementAttribute.as_attribute, ElementAttribute.as_spread_attribute,
      ElementAttribute.as_directive]

/-- C10: when the initial parse of the read source yields a non-empty
error list, main prints each decorated error and returns Ok without
producing the Original, Printed or Minified sections; when it yields no
errors, all three sections are produced, Printed from the first parse
and Minified from a reparse of the printed text. -/
theorem c10_codegen_error_path {α : Type} (parse : String → ParserReturn α)
    (build : Bool → String → α → String) (source_text : String) :
    ((parse source_text).errors ≠ [] →
      codegenMain parse build (.ok source_text) =
        .ok { errorOutput :=
                (parse source_text).errors.map (fun e => withSourceCode e source_text),
              originalOutput := none, printedOutput := none,
              minifiedOutput := none }) ∧
    ((parse source_text).errors = [] →
      codegenMain parse build (.ok source_text) =
        .ok { errorOutput := [],
              originalOutput := some source_text,
              printedOutput :=
                some (build false source_text (parse source_text).stylesheet),
              minifiedOutput :=
                some (build true source_text
                  (parse (build false source_text
                    (parse source_text).stylesheet)).stylesheet) }) := by
  constructor
  · intro h
    simp [codegenMain, h]
  · intro h
    simp [codegenMain, h]

/-- Witness for `c10_codegen_error_path`: a parser stub that always
fails with one error; main prints the decorated error and produces no
Original, Printed or Minified output. -/
theorem c10_witness :
    (demoFailingParse "broken css").errors ≠ [] ∧
    codegenMain demoFailingParse demoBuild (.ok "broken css") =
      .ok { errorOutput := [("unexpected token", "broken css")],
            originalOutput := none, printedOutput := none,
            minifiedOutput := none } :=
  ⟨by decide,
   by
    have h := (c10_codegen_error_path demoFailingParse demoBuild "broken css").1
      (by decide)
    simpa [demoFailingParse, withSourceCode] using h⟩
